import Mathlib

/-!
Shallow embedding of the scoring core of the `stock_analysis` repository
(src/analysis/limit_up_analyzer.py, src/analysis/sector_analyzer.py,
src/analysis/dragon_head_identifier.py, src/strategy/strategy_generator.py).

Modelling conventions:
* Python floats are embedded as rationals (`ℚ`); `round(x, 2)` is embedded as
  `round2` (round to nearest at two decimals; Python uses half-to-even at exact
  half-cent ties, a boundary no theorem below depends on).
* Python's builtin `hash` on strings is salted per process, so every function
  that calls `hash(code)` is parameterised by a hash function `h : String → ℕ`
  (`hash(code) % n` is non-negative in Python, so `ℕ` loses no behaviour).
* Chinese dict keys of the source become English field names; each definition
  carries a comment naming the source field (e.g. `sector` for `所属板块`,
  `score` for `综合评分`).
* `pandas` per-row dicts become structures; a missing key read with
  `.get(k, default)` is embedded as a field holding that default.
-/

/-- Python `round(x, 2)`: round to the nearest multiple of `1/100`. -/
def round2 (x : ℚ) : ℚ := ((round (x * 100) : ℤ) : ℚ) / 100

/-- Python `round(x, 1)`: round to the nearest multiple of `1/10`. -/
def round1 (x : ℚ) : ℚ := ((round (x * 10) : ℤ) : ℚ) / 10

/-- The last `n` elements of a list (`pandas` `.tail(n)` / Python `l[-n:]`). -/
def lastN (n : ℕ) (l : List α) : List α := l.drop (l.length - n)

/-- Maximum of a list of rationals with seed `d` (`pandas` `.max()`). -/
def listMaxD (d : ℚ) (l : List ℚ) : ℚ := l.foldl max d

/-- Minimum of a list of rationals with seed `d` (`pandas` `.min()`). -/
def listMinD (d : ℚ) (l : List ℚ) : ℚ := l.foldl min d

/-- Python `max(l, key=f)` on a non-empty list: the first element whose key is
maximal (Python's `max` keeps the earliest maximum). Returns `none` on `[]`
(where Python would raise). -/
def maxByKey (f : α → ℚ) : List α → Option α
  | [] => none
  | a :: l => some (l.foldl (fun b x => if f b < f x then x else b) a)

/-- Stable insertion of `a` into a list sorted descending by key `f`:
`a` goes after every earlier element whose key is ≥ its own. -/
def insertDesc (f : α → ℚ) (a : α) : List α → List α
  | [] => [a]
  | b :: l => if f b ≤ f a then a :: b :: l else b :: insertDesc f a l

/-- Python `list.sort(key=f, reverse=True)`: stable descending sort. -/
def sortDesc (f : α → ℚ) : List α → List α
  | [] => []
  | a :: l => insertDesc f a (sortDesc f l)

/-- First-occurrence-ordered list of the keys of `l` under `key`
(the iteration order of a Python `dict` built by insertion). -/
def firstKeys (key : α → String) (l : List α) : List String :=
  l.foldl (fun ks a => if key a ∈ ks then ks else ks ++ [key a]) []

/-- One daily bar of a stock's history (`HistoricalSeries` row, oldest→newest
in the list). `pct_change`/`preclose` are `Option`s: `none` embeds a missing
column or a non-numeric (`NaN`) cell, which `_check_limit_up_days` treats
specially. -/
structure Bar where
  close : ℚ
  preclose : Option ℚ
  pct_change : Option ℚ
  volume : ℚ
deriving DecidableEq

/-- One row of the day's limit-up roster (`limit_up_df`). -/
structure Record where
  code : String
  name : String
  close : ℚ
  pct_change : ℚ
  amount : ℚ
  volume : ℚ
deriving DecidableEq

/-- The `features` sub-dict of a stock analysis. A stock whose history is
missing or shorter than 5 bars keeps the default values, which are exactly the
defaults every consumer passes to `.get` (`price_position` 50,
`volume_quot` (source `volume_ratio`) 1, `is_breakout` False,
`trend_strength` 0). -/
structure Features where
  price_position : ℚ := 50
  volume_quot : ℚ := 1
  is_breakout : Bool := false
  trend_strength : ℚ := 0
deriving DecidableEq

/-- A per-stock analysis dict (`StockAnalysis`). Field ↔ source key:
`sector` = `所属板块` (default `""` = key absent), `score` = `综合评分`
(default 0 = key absent, matching `.get('综合评分', 0)`), `continuous_days`
default 0, enrichment fields `daily_increases`/`continuous_strength` added by
`_find_continuous_limit_up`. -/
structure Stock where
  code : String
  name : String
  close : ℚ
  pct_change : ℚ
  amount : ℚ
  volume : ℚ
  features : Features := {}
  continuous_days : ℕ := 0
  total_increase : ℚ := 0
  sector : String := ""
  score : ℚ := 0
  daily_increases : List ℚ := []
  continuous_strength : ℚ := 0
deriving DecidableEq

/-- Association-list lookup for `historical_data` (`code in historical_data`
and `historical_data[code]`). -/
def lookupHist (hist : List (String × List Bar)) (code : String) : Option (List Bar) :=
  (hist.find? (fun p => p.1 = code)).map (fun p => p.2)

/-- The percent change `_check_limit_up_days` derives for one bar:
`pct_change` if the column is present and not NaN, else
`(close/preclose - 1) * 100` when `preclose > 0`, else `0` when the
`preclose` column is present, and `none` (loop `break`) when both are missing. -/
def barPct (b : Bar) : Option ℚ :=
  match b.pct_change with
  | some p => some p
  | none =>
    match b.preclose with
    | some pc => some (if 0 < pc then (b.close / pc - 1) * 100 else 0)
    | none => none

/-- The backward walk of `_check_limit_up_days`: `l` is the history newest
first, `fuel` the remaining loop iterations; count a day iff its `barPct` is
≥ `threshold`, stop at the first failing day or on missing data. -/
def streakWalk (threshold : ℚ) : ℕ → List Bar → ℕ
  | 0, _ => 0
  | _ + 1, [] => 0
  | n + 1, b :: rest =>
    match barPct b with
    | none => 0
    | some p => if threshold ≤ p then streakWalk threshold n rest + 1 else 0

/-- `LimitUpAnalyzer._check_limit_up_days`: 0 on fewer than 2 bars, else walk
backward from the most recent bar for at most `min 10 (len - 1)` days. -/
def checkLimitUpDays (threshold : ℚ) (df : List Bar) : ℕ :=
  if df.length < 2 then 0
  else streakWalk threshold (min 10 (df.length - 1)) df.reverse

/-- `LimitUpAnalyzer._calculate_price_position`. -/
def pricePosition (df : List Bar) : ℚ :=
  if df.length < 20 then 50
  else
    let closes := lastN 20 (df.map (·.close))
    let cur := closes.getLastD 0
    let lo := listMinD cur closes
    let hi := listMaxD cur closes
    if hi = lo then 50 else round2 ((cur - lo) / (hi - lo) * 100)

/-- `LimitUpAnalyzer._calculate_volume_ratio` (`volume_quot` here; the last
volume over the mean of the previous five). -/
def volumeQuot (df : List Bar) : ℚ :=
  if df.length < 6 then 1
  else
    let vols := lastN 6 (df.map (·.volume))
    let today := vols.getLastD 0
    let avg := vols.dropLast.sum / 5
    round2 (if 0 < avg then today / avg else 1)

/-- `LimitUpAnalyzer._check_breakout`: last close above 1.03 × the max of the
previous nine closes (needs ≥ 10 bars). -/
def checkBreakout (df : List Bar) : Bool :=
  if df.length < 10 then false
  else
    let closes := lastN 10 (df.map (·.close))
    let cur := closes.getLastD 0
    let prevMax :=
      match closes.dropLast with
      | [] => 0
      | a :: t => listMaxD a t
    decide (prevMax * (103 / 100) < cur)

/-- `LimitUpAnalyzer._calculate_trend_strength`: five-day percent move. -/
def trendStrength (df : List Bar) : ℚ :=
  if df.length < 5 then 0
  else
    let closes := lastN 5 (df.map (·.close))
    let first := closes.headD 0
    let last := closes.getLastD 0
    if 0 < first then round2 ((last / first - 1) * 100) else 0

/-- `LimitUpAnalyzer._calculate_total_increase`: percent change from the close
`days` bars before the last one to the last close. -/
def totalIncrease (df : List Bar) (days : ℕ) : ℚ :=
  if df.length < days + 1 ∨ days = 0 then 0
  else
    let closes := lastN (days + 1) (df.map (·.close))
    let start := closes.headD 0
    let stop := closes.getLastD 0
    if 0 < start then round2 ((stop / start - 1) * 100) else 0

/-- Helper for `dailyIncreases`: day-by-day percent changes over the reversed
close list (newest first). -/
def dailyIncAux : ℕ → List ℚ → List ℚ
  | 0, _ => []
  | _ + 1, [] => []
  | _ + 1, [_] => []
  | n + 1, c :: p :: rest =>
    (if 0 < p then round2 ((c / p - 1) * 100) else 0) :: dailyIncAux n (p :: rest)

/-- `LimitUpAnalyzer._get_daily_increases`: the streak's daily percent moves,
oldest first. -/
def dailyIncreases (df : List Bar) (days : ℕ) : List ℚ :=
  if df.length < days + 1 ∨ days = 0 then []
  else (dailyIncAux days ((df.map (·.close)).reverse)).reverse

/-- `LimitUpAnalyzer._calculate_continuous_strength` (diagnostic 0–100). -/
def continuousStrength (s : Stock) (df : List Bar) : ℚ :=
  let base := min ((s.continuous_days : ℚ) * 20) 100 * (2 / 5)
  let volPart :=
    if 3 ≤ df.length then
      let vols := lastN 3 (df.map (·.volume))
      let mean := vols.sum / 3
      if 0 < mean then
        let vr := vols.getLastD 0 / mean
        if vr < 4 / 5 then (30 : ℚ) else if vr < 6 / 5 then 20 else 10
      else 0
    else 0
  let amountPart : ℚ :=
    if 1000000000 < s.amount then 30
    else if 500000000 < s.amount then 20
    else if 100000000 < s.amount then 10
    else 0
  round1 (min (base + volPart + amountPart) 100)

/-- `LimitUpAnalyzer._calculate_market_sentiment`: the sentiment label from the
limit-up total count. -/
def calculateMarketSentiment (limit_up_count : ℕ) : String :=
  if 100 < limit_up_count then ("高潮")
  else if 60 < limit_up_count then ("活跃")
  else if 30 < limit_up_count then ("温和")
  else if 10 < limit_up_count then ("清淡")
  else ("冰点")

/-- `LimitUpAnalyzer._estimate_success_rate`. -/
def estimateSuccessRate (limit_up_count : ℕ) : String :=
  if limit_up_count = 0 then ("0%")
  else if 80 < limit_up_count then ("85%")
  else if 50 < limit_up_count then ("75%")
  else if 30 < limit_up_count then ("65%")
  else ("55%")

/-- The `summary` dict of the analysis result. -/
structure Summary where
  total_count : ℕ
  amount_total : ℚ
  volume_total : ℚ
  avg_pct_change : ℚ
  avg_amount : ℚ
  max_pct_change : ℚ
  min_pct_change : ℚ
  market_sentiment : String
  success_rate : String
deriving DecidableEq

/-- The analysis result of `analyze_limit_up` (`patterns` holds the streak
stocks). -/
structure AnalysisResult where
  summary : Summary
  stocks : List Stock
  patterns : List Stock
deriving DecidableEq

/-- `LimitUpAnalyzer._empty_analysis_result`. -/
def emptyAnalysisResult : AnalysisResult :=
  { summary :=
      { total_count := 0, amount_total := 0, volume_total := 0
        avg_pct_change := 0, avg_amount := 0, max_pct_change := 0
        min_pct_change := 0, market_sentiment := ("冰点")
        success_rate := ("0%") }
    stocks := [], patterns := [] }

/-- `LimitUpAnalyzer._analyze_single_stock`: copy the roster row, then derive
features and streak when the stock has ≥ 5 bars of history. -/
def analyzeSingleStock (threshold : ℚ) (hist : List (String × List Bar))
    (r : Record) : Stock :=
  let base : Stock :=
    { code := r.code, name := r.name, close := r.close
      pct_change := r.pct_change, amount := r.amount, volume := r.volume }
  match lookupHist hist r.code with
  | none => base
  | some df =>
    if 5 ≤ df.length then
      let cd := checkLimitUpDays threshold df
      { base with
          features :=
            { price_position := pricePosition df
              volume_quot := volumeQuot df
              is_breakout := checkBreakout df
              trend_strength := trendStrength df }
          continuous_days := cd
          total_increase := totalIncrease df cd }
    else base

/-- `LimitUpAnalyzer._find_continuous_limit_up`: keep the analyzed stocks with
history and `continuous_days ≥ 2`, enrich them, sort by streak descending. -/
def findContinuousLimitUp (hist : List (String × List Bar))
    (stocks : List Stock) : List Stock :=
  sortDesc (fun s => (s.continuous_days : ℚ))
    (stocks.filterMap (fun s =>
      match lookupHist hist s.code with
      | none => none
      | some df =>
        if 2 ≤ s.continuous_days then
          some { s with
                   total_increase := totalIncrease df s.continuous_days
                   daily_increases := dailyIncreases df s.continuous_days
                   continuous_strength := continuousStrength s df }
        else none))

/-- `LimitUpAnalyzer.analyze_limit_up`. -/
def analyzeLimitUp (threshold : ℚ) (roster : List Record)
    (hist : List (String × List Bar)) : AnalysisResult :=
  if roster.isEmpty then emptyAnalysisResult
  else
    let n := roster.length
    let stocks := roster.map (analyzeSingleStock threshold hist)
    let summary : Summary :=
      { total_count := n
        amount_total := (roster.map (·.amount)).sum / 100000000
        volume_total := (roster.map (·.volume)).sum
        avg_pct_change := (roster.map (·.pct_change)).sum / n
        avg_amount := (roster.map (·.amount)).sum / n / 100000000
        max_pct_change := listMaxD ((roster.map (·.pct_change)).headD 0) (roster.map (·.pct_change))
        min_pct_change := listMinD ((roster.map (·.pct_change)).headD 0) (roster.map (·.pct_change))
        market_sentiment := calculateMarketSentiment n
        success_rate := estimateSuccessRate n }
    { summary := summary
      stocks := stocks
      patterns := findContinuousLimitUp hist stocks }

/-- One core-stock entry of a sector analysis (`核心股票` items). -/
structure CoreStock where
  code : String
  name : String
  role : String
  continuous_days : ℕ
  amount : ℚ
deriving DecidableEq

/-- One sector analysis dict of `SectorAnalyzer` output. Field ↔ source key:
`sector_name` = `板块名称`, `count` = `涨停数量`, `strength_score` = `强度得分`,
`structure_rating` = `梯队完整性`, `capital_inflow` = `资金流入`,
`persistence` = `持续性判断`, `core_stocks` = `核心股票`. -/
structure SectorInfo where
  sector_name : String
  count : ℕ
  strength_score : ℚ
  structure_rating : String
  capital_inflow : ℚ
  persistence : String
  core_stocks : List CoreStock
deriving DecidableEq

/-- The fixed catalogue keys of `SectorAnalyzer._group_stocks_by_sector`
(`list(sectors.keys())`, insertion order). -/
def sectorKeys : List String :=
  [("科技"), ("新能源"), ("医药"), ("消费"), ("周期"), ("金融"), ("其他")]

/-- `SectorAnalyzer._assign_stock_sector`: deterministic-within-a-process hash
of the code modulo the catalogue size. `h` stands for Python's salted
`hash`. -/
def assignStockSector (h : String → ℕ) (code : String) : String :=
  sectorKeys.getD (h code % sectorKeys.length) ("其他")

/-- `SectorAnalyzer._calculate_sector_strength` over roster rows (raw
`limit_up_df` rows carry no `continuous_days` key, so `.get` yields 0 and the
streak term vanishes; kept explicitly to mirror the source). -/
def calculateSectorStrength (stocks : List Record) : ℚ :=
  if stocks.isEmpty then 0
  else
    let count_score := min ((stocks.length : ℚ) * 10) 50
    let max_continuous : ℚ := 0
    let continuous_score := min (max_continuous * 15) 30
    let total_amount := (stocks.map (·.amount)).sum
    let amount_score : ℚ :=
      if 5000000000 < total_amount then 20
      else if 1000000000 < total_amount then 15
      else if 500000000 < total_amount then 10
      else 5
    round2 (count_score + continuous_score + amount_score)

/-- `SectorAnalyzer._check_sector_structure` (over roster rows every streak
height reads 0, one distinct value). -/
def checkSectorStructure (stocks : List Record) : String :=
  let uniqueHeights := (stocks.map (fun _ => (0 : ℕ))).dedup
  if 3 ≤ uniqueHeights.length then ("完整（多梯队）")
  else if uniqueHeights.length = 2 then ("一般（双梯队）")
  else ("单一（单梯队）")

/-- `SectorAnalyzer._judge_sector_persistence`: the §4.2 strength-score
threshold rule. -/
def judgeSectorPersistence (strength_score : ℚ) : String :=
  if 70 ≤ strength_score then ("强势，有望持续")
  else if 50 ≤ strength_score then ("中等，可能分化")
  else if 30 ≤ strength_score then ("一般，谨慎参与")
  else ("弱势，可能一日游")

/-- `SectorAnalyzer._assign_stock_role` (roster rows: streak 0, so the
amount branch decides). -/
def assignStockRole (stock : Record) (all_stocks : List Record) : String :=
  let continuous_days : ℕ := 0
  if 3 ≤ continuous_days then ("高度龙头")
  else if continuous_days = 2 then ("跟随龙")
  else
    let amounts := all_stocks.map (·.amount)
    let mx := listMaxD (amounts.headD 0) amounts
    if mx * (7 / 10) ≤ stock.amount then ("趋势中军") else ("补涨/跟风")

/-- `SectorAnalyzer._identify_core_stocks`: top 3 by streak (all 0 on roster
rows, so input order is kept by the stable sort). -/
def identifyCoreStocks (stocks : List Record) : List CoreStock :=
  if stocks.isEmpty then []
  else
    let sorted := sortDesc (fun _ => (0 : ℚ)) stocks
    (sorted.take 3).map (fun s =>
      { code := s.code, name := s.name, role := assignStockRole s sorted
        continuous_days := 0, amount := s.amount })

/-- `SectorAnalyzer._analyze_single_sector`. -/
def analyzeSingleSector (sector : String) (stocks : List Record) : SectorInfo :=
  let strength := calculateSectorStrength stocks
  { sector_name := sector
    count := stocks.length
    strength_score := strength
    structure_rating := checkSectorStructure stocks
    capital_inflow := (stocks.map (·.amount)).sum
    persistence := judgeSectorPersistence strength
    core_stocks := identifyCoreStocks stocks }

/-- `SectorAnalyzer.analyze_sectors`: group the roster by the hash-assigned
sector, analyze sectors with ≥ 2 limit-up stocks, sort by strength
descending. -/
def analyzeSectors (h : String → ℕ) (roster : List Record) :
    List (String × SectorInfo) :=
  if roster.isEmpty then []
  else
    let key := fun (r : Record) => assignStockSector h r.code
    let keys := firstKeys key roster
    let groups := keys.map (fun k => (k, roster.filter (fun r => key r = k)))
    sortDesc (fun p => p.2.strength_score)
      (groups.filterMap (fun g =>
        if 2 ≤ g.2.length then some (g.1, analyzeSingleSector g.1 g.2) else none))

/-- The prefix-keyed sector catalogue of
`DragonHeadIdentifier._get_stock_sector`. -/
def dragonSectorTable (c : Char) : Option (List String) :=
  if c = '6' then some [("银行"), ("证券"), ("保险"), ("基建"), ("能源")]
  else if c = '0' then some [("中小板"), ("制造业"), ("科技")]
  else if c = '3' then some [("创业板"), ("科技"), ("医药"), ("新能源")]
  else if c = '4' then some [("科创板"), ("高科技"), ("半导体"), ("生物医药")]
  else none

/-- `DragonHeadIdentifier._get_stock_sector`: fallback assignment keyed by the
code's first character, then `hash(code) % len(sector_list)` inside the
selected list. An empty code (where Python would raise `IndexError`) maps to
`其他`; no claim touches empty codes. -/
def getStockSector (h : String → ℕ) (code : String) : String :=
  match code.data with
  | [] => ("其他")
  | c :: _ =>
    match dragonSectorTable c with
    | some sector_list => sector_list.getD (h code % sector_list.length) ("其他")
    | none => ("其他")

/-- `DragonHeadIdentifier._get_stock_sector_from_data`: first sector of
`sector_data` whose core-stock list holds the code, else the fallback. -/
def getStockSectorFromData (h : String → ℕ)
    (sector_data : List (String × SectorInfo)) (code : String) : String :=
  match sector_data.find? (fun p => p.2.core_stocks.any (fun cs => cs.code = code)) with
  | some p => p.1
  | none => getStockSector h code

/-- The four scoring weights (`龙头评分权重`): `streak` = `连板高度`,
`limit_time` = `涨停时间`, `seal_amount` = `封单金额`, `float_cap` =
`流通市值` (the technical sub-score is weighted by it). -/
structure Weights where
  streak : ℚ
  limit_time : ℚ
  seal_amount : ℚ
  float_cap : ℚ
deriving DecidableEq

/-- The configured default weights (config.yaml template in run.py /
main.py). -/
def defaultWeights : Weights :=
  { streak := 7 / 20, limit_time := 1 / 4, seal_amount := 1 / 5, float_cap := 1 / 5 }

/-- `DragonHeadIdentifier._calculate_dragon_score`: the composite score. -/
def calculateDragonScore (w : Weights) (s : Stock) : ℚ :=
  let continuous_score := min ((s.continuous_days : ℚ) * 25) 100
  let limit_time_score : ℚ := 60
  let amount_score : ℚ :=
    if 1000000000 < s.amount then 100
    else if 500000000 < s.amount then 80
    else if 200000000 < s.amount then 65
    else if 50000000 < s.amount then 50
    else 30
  let technical_score : ℚ :=
    min (50 + (if s.features.is_breakout then 20 else 0)
           + (if 70 < s.features.price_position then 15
              else if s.features.price_position < 30 then 10 else 0)
           + (if 5 < s.features.trend_strength then 10 else 0)
           + (if 2 < s.features.volume_quot then 5 else 0)) 100
  round2 (continuous_score * w.streak + limit_time_score * w.limit_time
    + amount_score * w.seal_amount + technical_score * w.float_cap)

/-- The per-sector result of `_analyze_sector_roles`: `dragon` = `龙头`,
`core` = `中军`, `fill` = `补涨` (key absent = `none`). -/
structure SectorRoles where
  dragon : Option Stock := none
  core : Option Stock := none
  fill : Option Stock := none
deriving DecidableEq

/-- The `code` of an optional role pick (`roles['龙头']['code']` where the
Python code has already checked the key is present; `""` is never compared
against because the guards check presence first). -/
def optCode : Option Stock → String
  | some d => d.code
  | none => ""

/-- The `识别龙头` block of `_analyze_sector_roles`: the best-scored stock
among those with `continuous_days ≥ 2`, else the best-scored stock overall
(`scored` is already sorted by score descending). -/
def pickDragon (scored : List Stock) : Option Stock :=
  match maxByKey (·.score) (scored.filter (fun s => 2 ≤ s.continuous_days)) with
  | some d => some d
  | none => scored.head?

/-- The `识别中军` block of `_analyze_sector_roles`: the max-amount stock of
the top `min 5 len` by score; on collision with the Leader, and only when the
sector has more than 2 stocks, retry among ranks 2–3 (`scored_stocks[1:3]`)
excluding the Leader's code, keeping the colliding pick if the retry set is
empty. -/
def pickCore (dragon : Option Stock) (scored : List Stock) : Option Stock :=
  if scored.length ≤ 1 then none
  else
    match maxByKey (·.amount) (scored.take (min 5 scored.length)) with
    | none => none
    | some m =>
      if dragon.isSome ∧ optCode dragon = m.code then
        if 2 < scored.length then
          match maxByKey (·.amount)
              (((scored.drop 1).take 2).filter (fun s => s.code ≠ optCode dragon)) with
          | some m2 => some m2
          | none => some m
        else some m
      else some m

/-- The `识别补涨` block of `_analyze_sector_roles`: only with more than
2 stocks; candidates with `continuous_days ≤ 1` and `price_position < 50`,
falling back to breakout stocks among the bottom 3 by score
(`scored_stocks[-3:]`); pick the max by trend strength, dropped if it
coincides with the Leader or the Core. -/
def pickFill (dragon core : Option Stock) (scored : List Stock) : Option Stock :=
  if 2 < scored.length then
    let cands0 := scored.filter (fun s =>
      s.continuous_days ≤ 1 ∧ s.features.price_position < 50)
    let cands := if cands0.isEmpty then
        (lastN 3 scored).filter (·.features.is_breakout)
      else cands0
    match maxByKey (·.features.trend_strength) cands with
    | none => none
    | some f =>
      if dragon.isSome ∧ f.code ≠ optCode dragon ∧ core.isSome ∧ f.code ≠ optCode core
      then some f else none
  else none

/-- The scored-and-sorted stock list of `_analyze_sector_roles`
(`scored_stocks` after `stock['综合评分'] = score` and the descending sort). -/
def scoredStocks (w : Weights) (stocks : List Stock) : List Stock :=
  sortDesc (·.score) (stocks.map (fun s => { s with score := calculateDragonScore w s }))

/-- `DragonHeadIdentifier._analyze_sector_roles`: score and sort descending,
then run the three pick blocks. -/
def analyzeSectorRoles (w : Weights) (stocks : List Stock) : SectorRoles :=
  if stocks.length < 2 then {}
  else
    let scored := scoredStocks w stocks
    let dragon := pickDragon scored
    let core := pickCore dragon scored
    { dragon := dragon, core := core, fill := pickFill dragon core scored }

/-- The role assignment (`identify_roles` result): `dragons` = `龙头`,
`cores` = `中军`, `fills` = `补涨`, `watch` = `观察`. -/
structure Roles where
  dragons : List Stock
  cores : List Stock
  fills : List Stock
  watch : List Stock
deriving DecidableEq

/-- `DragonHeadIdentifier._empty_roles`. -/
def emptyRoles : Roles := { dragons := [], cores := [], fills := [], watch := [] }

/-- Tag a stock with its sector (`stock['所属板块'] = sector`). -/
def setSector (sector : String) (s : Stock) : Stock := { s with sector := sector }

/-- The sector grouping of `DragonHeadIdentifier._group_by_sector`: a Python
dict keyed by `_get_stock_sector_from_data`, in first-occurrence order, each
bucket in input order. -/
def dragonSectorGroups (h : String → ℕ) (sector_data : List (String × SectorInfo))
    (stocks : List Stock) : List (String × List Stock) :=
  let key := fun (s : Stock) => getStockSectorFromData h sector_data s.code
  (firstKeys key stocks).map (fun k => (k, stocks.filter (fun s => key s = k)))

/-- `DragonHeadIdentifier.identify_roles`: sectors with at least
`sector_threshold` (`板块强度阈值`) stocks get role analysis and contribute
their Leader/Core/Catch-up; every stock of an under-strength sector goes to
`watch`; the three role lists are then sorted by score descending. -/
def identifyRoles (h : String → ℕ) (w : Weights) (sector_threshold : ℕ)
    (stocks : List Stock) (sector_data : List (String × SectorInfo)) : Roles :=
  if stocks.isEmpty then emptyRoles
  else
    let groups := dragonSectorGroups h sector_data stocks
    let strong := fun (g : String × List Stock) => sector_threshold ≤ g.2.length
    { dragons := sortDesc (·.score) (groups.filterMap (fun g =>
        if strong g then ((analyzeSectorRoles w g.2).dragon).map (setSector g.1) else none))
      cores := sortDesc (·.score) (groups.filterMap (fun g =>
        if strong g then ((analyzeSectorRoles w g.2).core).map (setSector g.1) else none))
      fills := sortDesc (·.score) (groups.filterMap (fun g =>
        if strong g then ((analyzeSectorRoles w g.2).fill).map (setSector g.1) else none))
      watch := ((groups.filter (fun g => ¬ strong g)).map (fun g =>
        g.2.map (setSector g.1))).flatten }

/-- A theme entry of `_identify_main_themes`. Field ↔ source key:
`sector_name` = `板块名称`, `count` = `涨停家数`, `dragon_count` = `龙头数量`,
`strength_rating` = `强度评级`, `persistence` = `持续性判断`. -/
structure Theme where
  sector_name : String
  count : ℕ
  dragon_count : ℕ
  strength_rating : String
  persistence : String
deriving DecidableEq

/-- The per-sector stats dict built inside `_identify_main_themes`:
`count` and the list of role names (`roles`). -/
structure SectorStats where
  count : ℕ
  roles : List String
deriving DecidableEq

/-- A per-stock strategy entry of `_generate_stock_strategies` (AI commentary
disabled). Field ↔ source key: `code` = `代码`, `name` = `名称`,
`role` = `角色`, `strategy_type` = `策略类型`, `action` = `操作建议`,
`buy_condition` = `买入条件`, `stop_loss` = `止损位`, `target` = `目标位`,
`note` = `备注` (`none` = key absent). -/
structure StrategyItem where
  code : String
  name : String
  role : String
  strategy_type : String
  action : String
  buy_condition : String
  stop_loss : String
  target : String
  note : Option String := none
deriving DecidableEq

/-- The `市场概况` dict of the report: `total_count` = `涨停家数`,
`max_streak` = `连板高度`, `success_rate` = `封板成功率`,
`sentiment` = `市场情绪`, `profit_effect` = `赚钱效应`. -/
structure MarketOverview where
  total_count : ℕ
  max_streak : ℕ
  success_rate : String
  sentiment : String
  profit_effect : String
deriving DecidableEq

/-- The strategy report (`generate_strategy` result) minus the `生成时间`
timestamp, which every determinism statement excludes: `overview` = `市场概况`,
`themes` = `主线分析`, `stock_strategies` = `个股策略`,
`risk_warnings` = `风险提示`, `suggestions` = `操作建议`. -/
structure StrategyReport where
  overview : MarketOverview
  themes : List Theme
  stock_strategies : List StrategyItem
  risk_warnings : List String
  suggestions : List String
deriving DecidableEq

/-- Python `f"{q:.2f}"` on the embedded rational (two forced decimals). -/
def format2 (q : ℚ) : String :=
  let n : ℤ := round (q * 100)
  let ip : ℤ := n / 100
  let fp : ℕ := (n % 100).toNat
  toString ip ++ ("." ) ++ (if fp < 10 then ("0") else ("")) ++ toString fp

/-- `StrategyGenerator._get_max_continuous_days`: max streak over the
`patterns` list. -/
def getMaxContinuousDays (ar : AnalysisResult) : ℕ :=
  ar.patterns.foldl (fun m p => max m p.continuous_days) 0

/-- `StrategyGenerator._calculate_success_rate` (same lookup table as
`_estimate_success_rate`). -/
def generatorSuccessRate (total_count : ℕ) : String :=
  if total_count = 0 then ("0%")
  else if 80 < total_count then ("85%")
  else if 50 < total_count then ("75%")
  else if 30 < total_count then ("65%")
  else ("55%")

/-- `StrategyGenerator._assess_market_sentiment`: the report's sentiment
label from `total_count`. -/
def assessMarketSentiment (total_count : ℕ) : String :=
  if 80 < total_count then ("高潮")
  else if 50 < total_count then ("活跃")
  else if 30 < total_count then ("温和")
  else ("冰点")

/-- `StrategyGenerator._assess_profit_effect`. -/
def assessProfitEffect (total_count : ℕ) : String :=
  if 60 < total_count then ("好")
  else if 40 < total_count then ("一般")
  else ("差")

/-- `StrategyGenerator._rate_sector_strength`: 1–5 stars by count. -/
def rateSectorStrength (count : ℕ) : String :=
  if 10 ≤ count then ("★★★★★")
  else if 7 ≤ count then ("★★★★")
  else if 5 ≤ count then ("★★★")
  else if 3 ≤ count then ("★★")
  else ("★")

/-- `StrategyGenerator._judge_sector_persistence`: the generator's own
verdict rule, from the sector's role names and count. -/
def judgeThemePersistence (stats : SectorStats) : String :=
  if ("龙头") ∈ stats.roles ∧ 5 ≤ stats.count then ("主线明确，持续性较强")
  else if 3 ≤ stats.count then ("有一定持续性，需观察")
  else ("一日游可能性大，谨慎参与")

/-- The `(role name, stock)` pairs of a role assignment, in the iteration
order of `roles.items()` (insertion order `龙头, 中军, 补涨, 观察`). -/
def rolePairs (roles : Roles) : List (String × Stock) :=
  roles.dragons.map (fun s => (("龙头"), s))
    ++ roles.cores.map (fun s => (("中军"), s))
    ++ roles.fills.map (fun s => (("补涨"), s))
    ++ roles.watch.map (fun s => (("观察"), s))

/-- The sector of a stock as the generator reads it
(`stock.get('所属板块', '其他')`; the empty string embeds a missing key). -/
def statSector (s : Stock) : String := if s.sector = ("") then ("其他") else s.sector

/-- Per-sector stats of `_identify_main_themes`, for one sector key. -/
def sectorStatsFor (roles : Roles) (k : String) : SectorStats :=
  let pairs := (rolePairs roles).filter (fun p => statSector p.2 = k)
  { count := pairs.length, roles := pairs.map (·.1) }

/-- `StrategyGenerator._identify_main_themes` (no AI commentary): stats per
sector in first-occurrence order, keep sectors with count ≥ the threshold,
sort by count descending, top 3. -/
def identifyMainThemes (sector_threshold : ℕ) (roles : Roles) : List Theme :=
  let pairs := rolePairs roles
  let keys := firstKeys (fun p => statSector p.2) pairs
  let themes := keys.filterMap (fun k =>
    let stats := sectorStatsFor roles k
    if sector_threshold ≤ stats.count then
      some { sector_name := k
             count := stats.count
             dragon_count := stats.roles.count ("龙头")
             strength_rating := rateSectorStrength stats.count
             persistence := judgeThemePersistence stats }
    else none)
  (sortDesc (fun t => (t.count : ℚ)) themes).take 3

/-- `StrategyGenerator._get_dragon_strategy`: canned Leader action text by
streak length. -/
def getDragonStrategy (dragon : Stock) : String :=
  if 5 ≤ dragon.continuous_days then ("持有为主，断板时减仓，反包失败离场")
  else if 3 ≤ dragon.continuous_days then ("分歧时低吸，加速时持有，放量滞涨时减仓")
  else ("确认龙头地位后加仓，关注板块梯队完整性")

/-- `StrategyGenerator._generate_stock_strategies` with no AI commentary:
one templated entry per Leader, then per Core, then per Catch-up. -/
def generateStockStrategies (roles : Roles) : List StrategyItem :=
  roles.dragons.map (fun d =>
    { code := d.code, name := d.name, role := ("龙头")
      strategy_type := ("核心持仓")
      action := getDragonStrategy d
      buy_condition := ("分歧低吸或弱转强时")
      stop_loss := format2 (d.close * (93 / 100))
      target := format2 (d.close * (115 / 100)) })
  ++ roles.cores.map (fun m =>
    { code := m.code, name := m.name, role := ("中军")
      strategy_type := ("趋势跟随")
      action := ("5日线附近低吸，趋势持有")
      buy_condition := ("回踩5日线不破时")
      stop_loss := format2 (m.close * (95 / 100))
      target := format2 (m.close * (110 / 100)) })
  ++ roles.fills.map (fun f =>
    { code := f.code, name := f.name, role := ("补涨")
      strategy_type := ("短线套利")
      action := ("竞价强势或首封打板")
      buy_condition := ("板块强势时早盘首板")
      stop_loss := format2 (f.close * (92 / 100))
      target := format2 (f.close * (108 / 100))
      note := some ("快进快出，注意龙头走势") })

/-- `StrategyGenerator._generate_risk_warnings`: threshold-triggered warnings
in insertion order. -/
def generateRiskWarnings (ar : AnalysisResult) (roles : Roles) : List String :=
  let total := ar.summary.total_count
  let w1 := if 100 < total then [("涨停家数过多，警惕情绪高潮后的分化风险")] else []
  let w2 := if total < 30 then [("涨停家数较少，市场情绪低迷，注意仓位控制")] else []
  let max_days := getMaxContinuousDays ar
  let w3 := if 7 ≤ max_days then
      [("最高连板") ++ toString max_days ++ ("天，注意高位股补跌风险")] else []
  let w4 := if roles.dragons.length = 0 then
      [("无明显龙头板块，市场主线不清晰，谨慎操作")] else []
  w1 ++ w2 ++ w3 ++ w4

/-- `StrategyGenerator._generate_trading_suggestions`: two canned suggestions
by sentiment, plus a top-theme pointer when themes exist. -/
def generateTradingSuggestions (overview : MarketOverview) (themes : List Theme) :
    List String :=
  let base :=
    if overview.sentiment = ("高潮") then
      [("控制仓位，优先处理持仓，谨慎开新仓"), ("关注低位首板或新题材机会")]
    else if overview.sentiment = ("冰点") then
      [("小仓位试错，关注率先走强的板块"), ("重点观察连板股能否打开空间")]
    else
      [("去弱留强，聚焦主线板块核心个股"), ("龙头分歧时低吸，跟风股冲高减仓")]
  match themes with
  | [] => base
  | t :: _ => base ++ [("重点关注") ++ t.sector_name ++ ("板块，") ++ t.persistence]

/-- `StrategyGenerator.generate_strategy` with no AI commentary, minus the
generation timestamp. -/
def generateStrategy (sector_threshold : ℕ) (ar : AnalysisResult) (roles : Roles) :
    StrategyReport :=
  let overview : MarketOverview :=
    { total_count := ar.summary.total_count
      max_streak := getMaxContinuousDays ar
      success_rate := generatorSuccessRate ar.summary.total_count
      sentiment := assessMarketSentiment ar.summary.total_count
      profit_effect := assessProfitEffect ar.summary.total_count }
  let themes := identifyMainThemes sector_threshold roles
  { overview := overview
    themes := themes
    stock_strategies := generateStockStrategies roles
    risk_warnings := generateRiskWarnings ar roles
    suggestions := generateTradingSuggestions overview themes }

/-- The full `analyze → identify → generate` pipeline of `main.py`
(`_analyze_limit_up`, `_analyze_sectors`, `_identify_roles`,
`_generate_strategy`), parameterised by the process hash `h` and the
configuration (limit threshold, sector threshold, weights). -/
def runPipeline (h : String → ℕ) (limit_threshold : ℚ) (sector_threshold : ℕ)
    (w : Weights) (roster : List Record) (hist : List (String × List Bar)) :
    StrategyReport :=
  let ar := analyzeLimitUp limit_threshold roster hist
  let sectors := analyzeSectors h roster
  let roles := identifyRoles h w sector_threshold ar.stocks sectors
  generateStrategy sector_threshold ar roles

/-- A process hash assigning every code residue 0 (one possible salted-hash
behaviour of a Python run). -/
def hashZero : String → ℕ := fun _ => 0

/-- A process hash assigning every code residue 1 (another possible run). -/
def hashOne : String → ℕ := fun _ => 1

/-- Follows the spec's words for §4.1 streak detection: the per-bar percent
change, `pct_change` if present, else `(close/pre_close - 1) * 100`, treated
as 0 when `pre_close` is missing or zero. -/
def specBarPct (b : Bar) : ℚ :=
  match b.pct_change with
  | some p => p
  | none =>
    match b.preclose with
    | some pc => if 0 < pc then (b.close / pc - 1) * 100 else 0
    | none => 0

/-- Follows the spec's words: walk backward (`l` newest first) with `fuel`
days remaining, counting days with percent change ≥ the threshold, stopping at
the first failing day. -/
def specWalk (threshold : ℚ) : ℕ → List Bar → ℕ
  | 0, _ => 0
  | _ + 1, [] => 0
  | n + 1, b :: rest =>
    if threshold ≤ specBarPct b then specWalk threshold n rest + 1 else 0

/-- Follows the spec's words for §4.1 streak detection as the claim states it:
walk the history backward from the most recent bar with a cap of 10 days. -/
def specStreakDetection (threshold : ℚ) (df : List Bar) : ℕ :=
  specWalk threshold 10 df.reverse

/-- A bar that gains 10% (a limit-up day under the default 9.8 threshold). -/
def limitUpBar : Bar := { close := 10, preclose := some 9, pct_change := some 10, volume := 1 }

/-- Five consecutive limit-up bars: history for the C7 cap counterexample. -/
def fiveLimitUpBars : List Bar := [limitUpBar, limitUpBar, limitUpBar, limitUpBar, limitUpBar]

/-- C1 example — a 3-day streak leader candidate with a large amount. -/
def c1A : Stock :=
  { code := "600001", name := "A", close := 10, pct_change := 10
    amount := 2000000000, volume := 1, continuous_days := 3 }

/-- C1 example — the largest-amount stock (Core pick). -/
def c1B : Stock :=
  { code := "600002", name := "B", close := 10, pct_change := 10
    amount := 3000000000, volume := 1 }

/-- C1 example — a low-position 1-day stock (Catch-up pick). -/
def c1C : Stock :=
  { code := "600003", name := "C", close := 10, pct_change := 10
    amount := 100000000, volume := 1, continuous_days := 1
    features := { price_position := 30, trend_strength := 10 } }

/-- C1 example — a stock of the same strong sector that no role selects. -/
def c1D : Stock :=
  { code := "600004", name := "D", close := 10, pct_change := 10
    amount := 10000000, volume := 1
    features := { price_position := 60 } }

/-- C1 example — sector data placing all four example stocks in one sector,
so the grouping is independent of the hash. -/
def c1SectorInfo : SectorInfo :=
  { sector_name := ("科技"), count := 4, strength_score := 0
    structure_rating := "", capital_inflow := 0, persistence := ""
    core_stocks :=
      [⟨"600001", "A", "", 0, 0⟩, ⟨"600002", "B", "", 0, 0⟩
       , ⟨"600003", "C", "", 0, 0⟩, ⟨"600004", "D", "", 0, 0⟩] }

/-- A weight configuration putting all weight on the streak factor (sums to
1.0; keeps concrete score arithmetic small). -/
def wStreakOnly : Weights :=
  { streak := 1, limit_time := 0, seal_amount := 0, float_cap := 0 }

/-- C1 example — the role identifier run on the four-stock roster at the
default sector threshold 3. -/
def c1Roles : Roles :=
  identifyRoles hashZero wStreakOnly 3 [c1A, c1B, c1C, c1D] [(("科技"), c1SectorInfo)]

/-- C3 example — roster row with a mid-sized amount. -/
def c3A : Record :=
  { code := "600001", name := "A", close := 10, pct_change := 10
    amount := 600000000, volume := 1000000 }

/-- C3 example — roster row with the larger amount. -/
def c3B : Record :=
  { code := "600002", name := "B", close := 20, pct_change := 10
    amount := 2000000000, volume := 1000000 }

/-- C9 example — two-stock sector where the top-scored stock also has the
largest amount, so the initial Core pick collides with the Leader. -/
def c9A : Stock :=
  { code := "600001", name := "A", close := 10, pct_change := 10
    amount := 2000000000, volume := 1 }

/-- C9 example — the rank-2 stock the claim's retry rule would pick. -/
def c9B : Stock :=
  { code := "600002", name := "B", close := 10, pct_change := 10
    amount := 100000000, volume := 1 }

/-- C10 example — sector data placing the two C9 example stocks in one
sector. -/
def c10SectorInfo : SectorInfo :=
  { sector_name := ("科技"), count := 2, strength_score := 0
    structure_rating := "", capital_inflow := 0, persistence := ""
    core_stocks := [⟨"600001", "A", "", 0, 0⟩, ⟨"600002", "B", "", 0, 0⟩] }

/-- C10 example — a two-stock roster in one sector at threshold 2. -/
def c10Roles : Roles :=
  identifyRoles hashZero wStreakOnly 2 [c9A, c9B] [(("科技"), c10SectorInfo)]

/-- C6/C10 witness example — a plain scored stock. -/
def c6Stock : Stock :=
  { code := "600001", name := "A", close := 10, pct_change := 10
    amount := 600000000, volume := 1, continuous_days := 2 }

theorem mem_insertDesc {f : α → ℚ} {a x : α} :
    ∀ {l : List α}, x ∈ insertDesc f a l ↔ x = a ∨ x ∈ l := by
  intro l
  induction l with
  | nil => simp [insertDesc]
  | cons b t ih =>
    by_cases hb : f b ≤ f a
    · simp [insertDesc, hb]
    · simp only [insertDesc, if_neg hb, List.mem_cons, ih]
      tauto

theorem mem_sortDesc {f : α → ℚ} {x : α} :
    ∀ {l : List α}, x ∈ sortDesc f l ↔ x ∈ l := by
  intro l
  induction l with
  | nil => simp [sortDesc]
  | cons b t ih => simp [sortDesc, mem_insertDesc, ih]

theorem length_insertDesc {f : α → ℚ} {a : α} :
    ∀ {l : List α}, (insertDesc f a l).length = l.length + 1 := by
  intro l
  induction l with
  | nil => simp [insertDesc]
  | cons b t ih =>
    by_cases hb : f b ≤ f a
    · simp [insertDesc, hb]
    · simp [insertDesc, if_neg hb, ih]

theorem length_sortDesc {f : α → ℚ} :
    ∀ {l : List α}, (sortDesc f l).length = l.length := by
  intro l
  induction l with
  | nil => rfl
  | cons b t ih => simp [sortDesc, length_insertDesc, ih]

theorem foldl_maxByKey_mem {f : α → ℚ} :
    ∀ (l : List α) (a : α), l.foldl (fun b x => if f b < f x then x else b) a ∈ a :: l := by
  intro l
  induction l with
  | nil => intro a; simp [List.foldl]
  | cons x t ih =>
    intro a
    have h := ih (if f a < f x then x else a)
    simp only [List.foldl]
    rcases List.mem_cons.mp h with h1 | h1
    · by_cases hc : f a < f x
      · rw [h1, if_pos hc]; simp
      · rw [h1, if_neg hc]; simp
    · simp [List.mem_cons, h1]

theorem maxByKey_mem {f : α → ℚ} {l : List α} {m : α}
    (h : maxByKey f l = some m) : m ∈ l := by
  cases l with
  | nil => simp [maxByKey] at h
  | cons a t =>
    simp only [maxByKey, Option.some.injEq] at h
    have := foldl_maxByKey_mem (f := f) t a
    rw [h] at this
    exact this

theorem maxByKey_isSome {f : α → ℚ} {l : List α}
    (h : l ≠ []) : (maxByKey f l).isSome := by
  cases l with
  | nil => exact absurd rfl h
  | cons a t => simp [maxByKey]

theorem mem_firstKeys_foldl {key : α → String} {x : String} :
    ∀ (l : List α) (init : List String),
      x ∈ l.foldl (fun ks a => if key a ∈ ks then ks else ks ++ [key a]) init ↔
        x ∈ init ∨ ∃ a ∈ l, key a = x := by
  intro l
  induction l with
  | nil => intro init; simp
  | cons b t ih =>
    intro init
    simp only [List.foldl]
    by_cases hb : key b ∈ init
    · rw [if_pos hb, ih]
      constructor
      · rintro (h | ⟨a, ha, hk⟩)
        · exact Or.inl h
        · exact Or.inr ⟨a, List.mem_cons_of_mem b ha, hk⟩
      · rintro (h | ⟨a, ha, hk⟩)
        · exact Or.inl h
        · rcases List.mem_cons.mp ha with h1 | h1
          · subst h1; exact Or.inl (hk ▸ hb)
          · exact Or.inr ⟨a, h1, hk⟩
    · rw [if_neg hb, ih]
      constructor
      · rintro (h | ⟨a, ha, hk⟩)
        · rcases List.mem_append.mp h with h1 | h1
          · exact Or.inl h1
          · exact Or.inr ⟨b, List.mem_cons_self b t, (List.mem_singleton.mp h1).symm⟩
        · exact Or.inr ⟨a, List.mem_cons_of_mem b ha, hk⟩
      · rintro (h | ⟨a, ha, hk⟩)
        · exact Or.inl (List.mem_append.mpr (Or.inl h))
        · rcases List.mem_cons.mp ha with h1 | h1
          · subst h1; exact Or.inl (List.mem_append.mpr (Or.inr (by simp [hk])))
          · exact Or.inr ⟨a, h1, hk⟩

theorem mem_firstKeys {key : α → String} {l : List α} {x : String} :
    x ∈ firstKeys key l ↔ ∃ a ∈ l, key a = x := by
  rw [firstKeys, mem_firstKeys_foldl]
  simp

theorem length_filterMap_eq_length_filter {f : α → Option β} {p : α → Bool} :
    ∀ {l : List α}, (∀ a ∈ l, (f a).isSome = p a) →
      (l.filterMap f).length = (l.filter p).length := by
  intro l
  induction l with
  | nil => intro _; rfl
  | cons a t ih =>
    intro hl
    have ha := hl a (List.mem_cons_self a t)
    have ht : ∀ b ∈ t, (f b).isSome = p b := fun b hb => hl b (List.mem_cons_of_mem a hb)
    cases hf : f a with
    | none =>
      have hp : p a = false := by rw [← ha, hf]; rfl
      simp [List.filterMap_cons, hf, List.filter_cons, hp, ih ht]
    | some b =>
      have hp : p a = true := by rw [← ha, hf]; rfl
      simp [List.filterMap_cons, hf, List.filter_cons, hp, ih ht]

theorem mem_drop_one_take_two_take_five {l : List α} {x : α}
    (h : x ∈ (l.drop 1).take 2) : x ∈ l.take 5 := by
  rw [List.take_drop] at h
  have h2 : x ∈ l.take (1 + 2) := List.drop_subset 1 _ h
  have h3 : l.take 3 = (l.take 5).take 3 := by
    rw [List.take_take]
    norm_num
  rw [show (1 + 2) = 3 from rfl, h3] at h2
  exact List.take_subset 3 (l.take 5) h2

theorem round2_nonneg {x : ℚ} (h : 0 ≤ x) : 0 ≤ round2 x := by
  unfold round2
  have h1 : (0 : ℤ) ≤ round (x * 100) := by
    rw [round_eq]
    exact Int.le_floor.mpr (by push_cast; linarith)
  positivity

theorem round2_le_100 {x : ℚ} (h : x ≤ 100) : round2 x ≤ 100 := by
  unfold round2
  have h1 : round (x * 100) ≤ 10000 := by
    rw [round_eq]
    have h2 : (⌊x * 100 + 1 / 2⌋ : ℚ) ≤ x * 100 + 1 / 2 := Int.floor_le _
    have h3 : ((⌊x * 100 + 1 / 2⌋ : ℤ) : ℚ) < 10001 := by linarith
    have h4 : (⌊x * 100 + 1 / 2⌋ : ℤ) < 10001 := by exact_mod_cast h3
    omega
  have h5 : ((round (x * 100) : ℤ) : ℚ) ≤ 10000 := by exact_mod_cast h1
  linarith

theorem bank_prefix_disjoint (i j : ℕ) (hi : i < 5) (hj : j < 7) :
    ([("银行"), ("证券"), ("保险"), ("基建"), ("能源")].getD i ("其他")) ≠
      sectorKeys.getD j ("其他") := by
  interval_cases i <;> interval_cases j <;> decide

theorem getStockSector_cons (h : String → ℕ) (code : String) (c : Char) (rest : List Char)
    (hc : code.data = c :: rest) :
    getStockSector h code =
      (match dragonSectorTable c with
       | some sector_list => sector_list.getD (h code % sector_list.length) ("其他")
       | none => ("其他")) := by
  unfold getStockSector
  rw [hc]

/-- C2 (counterexample): at code `600000` under one fixed in-process hash, the
role identifier's fallback assigns `银行` while the sector analyzer's rule
assigns `科技` — the two sector-assignment functions do not agree. -/
theorem C2_fallback_counterexample :
    getStockSector hashZero ("600000") = ("银行") ∧
    assignStockSector hashZero ("600000") = ("科技") ∧
    getStockSector hashZero ("600000") ≠ assignStockSector hashZero ("600000") := by
  with_unfolding_all decide

/-- C2 (amended): the fallback uses a different, prefix-keyed catalogue; for
every code whose first character is `6` (Shanghai main board) and every
process hash, the fallback's sector differs from the sector analyzer's
hash-assigned sector, because the prefix-6 name list is disjoint from the
analyzer's catalogue keys. -/
theorem C2_fallback_prefix6_always_disagrees (h : String → ℕ) (code : String)
    (rest : List Char) (hc : code.data = '6' :: rest) :
    getStockSector h code ≠ assignStockSector h code := by
  have h5 : h code % 5 < 5 := Nat.mod_lt _ (by norm_num)
  have h7 : h code % 7 < 7 := Nat.mod_lt _ (by norm_num)
  rw [getStockSector_cons h code '6' rest hc]
  unfold assignStockSector
  simpa [dragonSectorTable, sectorKeys] using bank_prefix_disjoint (h code % 5) (h code % 7) h5 h7

/-- C2 (witness for the amended theorem at a concrete code and hash). -/
theorem C2_fallback_prefix6_always_disagrees_witness :
    getStockSector hashOne ("600001") ≠ assignStockSector hashOne ("600001") :=
  C2_fallback_prefix6_always_disagrees hashOne ("600001")
    ['0', '0', '0', '0', '1'] (by rfl)

/-- C4 (counterexample): at a total count of 90 the limit-up analyzer labels
the market `活跃` but the strategy generator's market summary labels it
`高潮` — the generator does not use the same thresholds. -/
theorem C4_sentiment_counterexample :
    calculateMarketSentiment 90 = ("活跃") ∧ assessMarketSentiment 90 = ("高潮") ∧
    calculateMarketSentiment 90 ≠ assessMarketSentiment 90 := by
  decide

/-- C4 (amended): the analyzer's label follows the claimed ladder
(>100, >60, >30, >10), but the generator uses >80, >50, >30 with no `清淡`
tier; the two labels agree exactly when the count is ≤ 10, in 31–50, in
61–80, or above 100. -/
theorem C4_sentiment_agreement_iff (n : ℕ) :
    calculateMarketSentiment n = assessMarketSentiment n ↔
      (n ≤ 10 ∨ (30 < n ∧ n ≤ 50) ∨ (60 < n ∧ n ≤ 80) ∨ 100 < n) := by
  unfold calculateMarketSentiment assessMarketSentiment
  split_ifs <;>
    first
      | exact iff_of_true rfl (by omega)
      | exact iff_of_false (by decide) (by omega)

/-- C5 (counterexample): on a concrete theme (count 5 with a Leader) the
generator's verdict is `主线明确，持续性较强`, which is not the §4.2
strength-score rule's output at any of its four tiers. -/
theorem C5_theme_persistence_counterexample :
    judgeThemePersistence ⟨5, [("龙头"), ("中军")]⟩ = ("主线明确，持续性较强") ∧
    judgeThemePersistence ⟨5, [("龙头"), ("中军")]⟩ ≠ judgeSectorPersistence 75 ∧
    judgeThemePersistence ⟨5, [("龙头"), ("中军")]⟩ ≠ judgeSectorPersistence 55 ∧
    judgeThemePersistence ⟨5, [("龙头"), ("中军")]⟩ ≠ judgeSectorPersistence 35 ∧
    judgeThemePersistence ⟨5, [("龙头"), ("中军")]⟩ ≠ judgeSectorPersistence 0 := by
  decide

/-- C5 (amended): the theme verdict is computed by the generator's own
count-and-role rule, not §4.2's strength-score rule: the two rules' output
strings are disjoint, so no theme verdict ever equals a §4.2 verdict. -/
theorem C5_theme_persistence_never_sector_rule (stats : SectorStats) (sc : ℚ) :
    judgeThemePersistence stats ≠ judgeSectorPersistence sc := by
  unfold judgeThemePersistence judgeSectorPersistence
  split_ifs <;> decide

/-- C7 (counterexample): a five-bar history of limit-up days yields
`continuous_days = 4` from the code but 5 from the claim's described walk —
the code's cap is `min 10 (len - 1)`, not 10. -/
theorem C7_streak_cap_counterexample :
    checkLimitUpDays (49 / 5) fiveLimitUpBars = 4 ∧
    specStreakDetection (49 / 5) fiveLimitUpBars = 5 ∧
    checkLimitUpDays (49 / 5) fiveLimitUpBars ≠ specStreakDetection (49 / 5) fiveLimitUpBars := by
  with_unfolding_all decide

/-- C9 (counterexample): in a two-stock sector whose Leader also has the
largest amount, the initial Core pick collides with the Leader and the code
keeps it (no retry happens with ≤ 2 stocks), so Core = Leader instead of the
rank-2 stock the claim's retry rule requires. -/
theorem C9_core_retry_counterexample :
    ((analyzeSectorRoles defaultWeights [c9A, c9B]).dragon).map (fun s => s.code)
        = some ("600001") ∧
    ((analyzeSectorRoles defaultWeights [c9A, c9B]).core).map (fun s => s.code)
        = some ("600001") ∧
    c9B.code = ("600002") := by
  with_unfolding_all decide

theorem maxByKey_eq_none {f : α → ℚ} {l : List α} :
    maxByKey f l = none ↔ l = [] := by
  cases l <;> simp [maxByKey]

theorem pickDragon_isSome {scored : List Stock} (h : scored ≠ []) :
    (pickDragon scored).isSome := by
  unfold pickDragon
  split
  · rfl
  · simpa [List.head?_isSome] using h

theorem pickCore_isSome {dragon : Option Stock} {scored : List Stock}
    (h : 2 ≤ scored.length) : (pickCore dragon scored).isSome := by
  unfold pickCore
  rw [if_neg (by omega)]
  split
  case _ hm =>
    exfalso
    have h0 : (scored.take (min 5 scored.length)).length = 0 := by
      rw [maxByKey_eq_none.mp hm]
      rfl
    rw [List.length_take] at h0
    omega
  case _ m hm =>
    split_ifs with h1 h2
    · split
      · rfl
      · rfl
    · rfl
    · rfl

theorem pickCore_mem_take5 {dragon : Option Stock} {scored : List Stock} {s : Stock}
    (h : pickCore dragon scored = some s) : s ∈ scored.take 5 := by
  unfold pickCore at h
  by_cases hlen : scored.length ≤ 1
  · rw [if_pos hlen] at h
    exact absurd h (by simp)
  · rw [if_neg hlen] at h
    have htake : scored.take (min 5 scored.length) = scored.take 5 :=
      List.take_eq_take.mpr (by omega)
    split at h
    case _ hm => exact absurd h (by simp)
    case _ m hm =>
      have hmem : m ∈ scored.take 5 := htake ▸ maxByKey_mem hm
      split_ifs at h with h1 h2
      · split at h
        case _ m2 h3 =>
          have hm2 : m2 ∈ ((scored.drop 1).take 2).filter
              (fun u => decide (u.code ≠ optCode dragon)) := maxByKey_mem h3
          have hm2b : m2 ∈ (scored.drop 1).take 2 := List.mem_of_mem_filter hm2
          have hin := mem_drop_one_take_two_take_five hm2b
          rw [Option.some_inj] at h
          exact h ▸ hin
        case _ h3 =>
          rw [Option.some_inj] at h
          exact h ▸ hmem
      · rw [Option.some_inj] at h
        exact h ▸ hmem
      · rw [Option.some_inj] at h
        exact h ▸ hmem

theorem length_scoredStocks (w : Weights) (stocks : List Stock) :
    (scoredStocks w stocks).length = stocks.length := by
  unfold scoredStocks
  rw [length_sortDesc, List.length_map]

theorem analyzeSectorRoles_eq (w : Weights) (stocks : List Stock)
    (h : 2 ≤ stocks.length) :
    analyzeSectorRoles w stocks =
      { dragon := pickDragon (scoredStocks w stocks)
        core := pickCore (pickDragon (scoredStocks w stocks)) (scoredStocks w stocks)
        fill := pickFill (pickDragon (scoredStocks w stocks))
          (pickCore (pickDragon (scoredStocks w stocks)) (scoredStocks w stocks))
          (scoredStocks w stocks) } := by
  unfold analyzeSectorRoles
  rw [if_neg (by omega)]

theorem analyzeSectorRoles_dragon_isSome (w : Weights) (stocks : List Stock)
    (h : 2 ≤ stocks.length) : ((analyzeSectorRoles w stocks).dragon).isSome := by
  rw [analyzeSectorRoles_eq w stocks h]
  apply pickDragon_isSome
  intro hnil
  have hl := length_scoredStocks w stocks
  rw [hnil] at hl
  simp at hl
  omega

theorem analyzeSectorRoles_core_isSome (w : Weights) (stocks : List Stock)
    (h : 2 ≤ stocks.length) : ((analyzeSectorRoles w stocks).core).isSome := by
  rw [analyzeSectorRoles_eq w stocks h]
  apply pickCore_isSome
  rw [length_scoredStocks]
  exact h

theorem streakWalk_eq_specWalk {threshold : ℚ} (hθ : 0 < threshold) :
    ∀ (n : ℕ) (l : List Bar), streakWalk threshold n l = specWalk threshold n l := by
  intro n
  induction n with
  | zero => intro l; rfl
  | succ n ih =>
    intro l
    cases l with
    | nil => rfl
    | cons b rest =>
      simp only [streakWalk, specWalk]
      unfold barPct specBarPct
      cases hp : b.pct_change with
      | some p => simp [ih]
      | none =>
        cases hpc : b.preclose with
        | some pc => simp [ih]
        | none =>
          simp only []
          rw [if_neg (by linarith)]

theorem analyzeSingleStock_code (threshold : ℚ) (hist : List (String × List Bar))
    (r : Record) : (analyzeSingleStock threshold hist r).code = r.code := by
  unfold analyzeSingleStock
  cases lookupHist hist r.code with
  | none => rfl
  | some df =>
    dsimp only
    split <;> rfl

theorem analyzeSingleStock_hist_of_cd (threshold : ℚ) (hist : List (String × List Bar))
    (r : Record) (h : 1 ≤ (analyzeSingleStock threshold hist r).continuous_days) :
    ∃ df, lookupHist hist r.code = some df := by
  unfold analyzeSingleStock at h
  cases hdf : lookupHist hist r.code with
  | none => rw [hdf] at h; exact absurd h (by simp)
  | some df => exact ⟨df, rfl⟩

theorem analyzeLimitUp_patterns_iff (threshold : ℚ) (roster : List Record)
    (hist : List (String × List Bar)) (c : String) :
    c ∈ ((analyzeLimitUp threshold roster hist).patterns.map (fun s => s.code)) ↔
      c ∈ (((analyzeLimitUp threshold roster hist).stocks.filter
          (fun s => 2 ≤ s.continuous_days)).map (fun s => s.code)) := by
  unfold analyzeLimitUp
  by_cases hemp : roster.isEmpty
  · rw [if_pos hemp]
    simp [emptyAnalysisResult]
  · rw [if_neg hemp]
    dsimp only
    unfold findContinuousLimitUp
    rw [List.mem_map, List.mem_map]
    constructor
    · rintro ⟨s, hs, rfl⟩
      rw [mem_sortDesc, List.mem_filterMap] at hs
      obtain ⟨t, ht, hgt⟩ := hs
      cases hdf : lookupHist hist t.code with
      | none => rw [hdf] at hgt; exact absurd hgt (by simp)
      | some df =>
        rw [hdf] at hgt
        dsimp only at hgt
        by_cases hcd : 2 ≤ t.continuous_days
        · rw [if_pos hcd] at hgt
          rw [Option.some_inj] at hgt
          refine ⟨t, ?_, ?_⟩
          · rw [List.mem_filter]
            exact ⟨ht, by simpa using hcd⟩
          · rw [← hgt]
        · rw [if_neg hcd] at hgt
          exact absurd hgt (by simp)
    · rintro ⟨t, ht, rfl⟩
      rw [List.mem_filter] at ht
      obtain ⟨ht, hcd⟩ := ht
      rw [decide_eq_true_eq] at hcd
      rw [List.mem_map] at ht
      obtain ⟨r, hr, rfl⟩ := ht
      obtain ⟨df, hdf⟩ := analyzeSingleStock_hist_of_cd threshold hist r (by omega)
      have hcode := analyzeSingleStock_code threshold hist r
      refine ⟨{ analyzeSingleStock threshold hist r with
                  total_increase := totalIncrease df (analyzeSingleStock threshold hist r).continuous_days
                  daily_increases := dailyIncreases df (analyzeSingleStock threshold hist r).continuous_days
                  continuous_strength := continuousStrength (analyzeSingleStock threshold hist r) df },
              ?_, rfl⟩
      rw [mem_sortDesc, List.mem_filterMap]
      refine ⟨analyzeSingleStock threshold hist r, List.mem_map_of_mem _ hr, ?_⟩
      rw [hcode, hdf]
      dsimp only
      rw [if_pos hcd, hcode]

theorem weighted_sum_bounds {a b c d wa wb wc wd : ℚ}
    (ha : 0 ≤ a ∧ a ≤ 100) (hb : 0 ≤ b ∧ b ≤ 100) (hc : 0 ≤ c ∧ c ≤ 100)
    (hd : 0 ≤ d ∧ d ≤ 100) (hwa : 0 ≤ wa) (hwb : 0 ≤ wb) (hwc : 0 ≤ wc) (hwd : 0 ≤ wd)
    (hsum : wa + wb + wc + wd = 1) :
    0 ≤ a * wa + b * wb + c * wc + d * wd ∧ a * wa + b * wb + c * wc + d * wd ≤ 100 := by
  constructor
  · have h1 := mul_nonneg ha.1 hwa
    have h2 := mul_nonneg hb.1 hwb
    have h3 := mul_nonneg hc.1 hwc
    have h4 := mul_nonneg hd.1 hwd
    linarith
  · have h1 : a * wa ≤ 100 * wa := mul_le_mul_of_nonneg_right ha.2 hwa
    have h2 : b * wb ≤ 100 * wb := mul_le_mul_of_nonneg_right hb.2 hwb
    have h3 : c * wc ≤ 100 * wc := mul_le_mul_of_nonneg_right hc.2 hwc
    have h4 : d * wd ≤ 100 * wd := mul_le_mul_of_nonneg_right hd.2 hwd
    nlinarith [hsum]

set_option maxHeartbeats 3200000 in
/-- C1 (counterexample): on a four-stock roster whose single sector passes the
default strength threshold 3, the identifier picks `600001` as Leader,
`600002` as Core and `600003` as Catch-up, while the unselected `600004` —
a stock of that sufficiently-strong sector — appears in none of the four role
lists (in particular not in Watch): the four sets do not cover the input. -/
theorem C1_partition_counterexample :
    c1D ∈ ([c1A, c1B, c1C, c1D] : List Stock) ∧ c1D.code = ("600004") ∧
    c1Roles.dragons.map (fun s => s.code) = [("600001")] ∧
    c1Roles.cores.map (fun s => s.code) = [("600002")] ∧
    c1Roles.fills.map (fun s => s.code) = [("600003")] ∧
    c1Roles.watch = [] := by
  refine ⟨by simp, rfl, ?_, ?_, ?_, ?_⟩ <;>
    norm_num [c1Roles, identifyRoles, dragonSectorGroups, firstKeys, getStockSectorFromData,
      c1SectorInfo, getStockSector, analyzeSectorRoles, scoredStocks, pickDragon, pickCore,
      pickFill, optCode, calculateDragonScore, sortDesc, insertDesc, maxByKey, setSector,
      c1A, c1B, c1C, c1D, wStreakOnly, hashZero, round2, min_def, sectorKeys, lastN,
      listMaxD, dragonSectorTable, emptyRoles, round_eq, List.filterMap_cons, List.filter_cons]

/-- C1 (amended): the Watch list holds exactly the stocks of under-strength
sectors — a stock (tagged with its sector) is in Watch iff it came from the
input and its sector group has fewer than `sector_threshold` members; stocks
of sufficiently strong sectors that are not chosen as Leader, Core or Catch-up
are dropped from the output entirely, so the four role sets need not
partition the input. -/
theorem C1_watch_exactly_under_strength (h : String → ℕ) (w : Weights) (θ : ℕ)
    (sd : List (String × SectorInfo)) (stocks : List Stock) (x : Stock) :
    x ∈ (identifyRoles h w θ stocks sd).watch ↔
      ∃ s ∈ stocks, x = setSector (getStockSectorFromData h sd s.code) s ∧
        (stocks.filter (fun u =>
          getStockSectorFromData h sd u.code = getStockSectorFromData h sd s.code)).length < θ := by
  by_cases hemp : stocks.isEmpty
  · have hnil : stocks = [] := by simpa using hemp
    subst hnil
    simp [identifyRoles, emptyRoles]
  · unfold identifyRoles
    rw [if_neg hemp]
    dsimp only
    rw [List.mem_flatten]
    constructor
    · rintro ⟨L, hL, hxL⟩
      rw [List.mem_map] at hL
      obtain ⟨g, hgf, rfl⟩ := hL
      rw [List.mem_filter] at hgf
      obtain ⟨hgg, hweak⟩ := hgf
      unfold dragonSectorGroups at hgg
      rw [List.mem_map] at hgg
      obtain ⟨k, hk, rfl⟩ := hgg
      rw [List.mem_map] at hxL
      obtain ⟨s, hsf, rfl⟩ := hxL
      rw [List.mem_filter] at hsf
      obtain ⟨hs, hkey⟩ := hsf
      rw [decide_eq_true_eq] at hkey
      simp only [decide_eq_true_eq, not_le] at hweak
      have hkey' : getStockSectorFromData h sd s.code = k := hkey
      refine ⟨s, hs, ?_, ?_⟩
      · rw [hkey']
      · rw [hkey']
        simpa using hweak
    · rintro ⟨s, hs, rfl, hlen⟩
      refine ⟨(stocks.filter (fun u =>
          getStockSectorFromData h sd u.code = getStockSectorFromData h sd s.code)).map
            (setSector (getStockSectorFromData h sd s.code)), ?_, ?_⟩
      · rw [List.mem_map]
        refine ⟨(getStockSectorFromData h sd s.code,
          stocks.filter (fun u =>
            getStockSectorFromData h sd u.code = getStockSectorFromData h sd s.code)), ?_, rfl⟩
        rw [List.mem_filter]
        constructor
        · unfold dragonSectorGroups
          rw [List.mem_map]
          exact ⟨getStockSectorFromData h sd s.code,
            mem_firstKeys.mpr ⟨s, hs, rfl⟩, rfl⟩
        · simpa using hlen
      · rw [List.mem_map]
        refine ⟨s, ?_, rfl⟩
        rw [List.mem_filter]
        exact ⟨hs, by simp⟩

set_option maxHeartbeats 6400000 in
/-- C3: with identical roster, history and configuration, two runs whose
in-process string-hash salts differ (Python salts `hash` per process) produce
different reports — the theme name is `科技` under one hash and `新能源` under
the other — so the pipeline is not deterministic across runs. -/
theorem C3_pipeline_hash_divergence :
    (runPipeline hashZero (49 / 5) 2 defaultWeights [c3A, c3B] []).themes.map
        (fun t => t.sector_name) = [("科技")] ∧
    (runPipeline hashOne (49 / 5) 2 defaultWeights [c3A, c3B] []).themes.map
        (fun t => t.sector_name) = [("新能源")] ∧
    runPipeline hashZero (49 / 5) 2 defaultWeights [c3A, c3B] [] ≠
      runPipeline hashOne (49 / 5) 2 defaultWeights [c3A, c3B] [] := by
  have ha : (runPipeline hashZero (49 / 5) 2 defaultWeights [c3A, c3B] []).themes.map
      (fun t => t.sector_name) = [("科技")] := by
    norm_num [runPipeline, analyzeLimitUp, analyzeSingleStock, lookupHist, findContinuousLimitUp,
      checkLimitUpDays, calculateMarketSentiment, estimateSuccessRate, analyzeSectors,
      assignStockSector, analyzeSingleSector, calculateSectorStrength, checkSectorStructure,
      judgeSectorPersistence, identifyCoreStocks, assignStockRole, identifyRoles,
      dragonSectorGroups, firstKeys, getStockSectorFromData, getStockSector, analyzeSectorRoles,
      scoredStocks, pickDragon, pickCore, pickFill, optCode, calculateDragonScore, sortDesc,
      insertDesc, maxByKey, setSector, generateStrategy, identifyMainThemes, rolePairs,
      statSector, sectorStatsFor, rateSectorStrength, judgeThemePersistence,
      generateStockStrategies, generateRiskWarnings, generateTradingSuggestions,
      getMaxContinuousDays, generatorSuccessRate, assessMarketSentiment, assessProfitEffect,
      getDragonStrategy, format2, emptyAnalysisResult, emptyRoles, c3A, c3B, defaultWeights,
      hashZero, hashOne, round2, min_def, sectorKeys, lastN, listMaxD, listMinD,
      dragonSectorTable, round_eq, List.filterMap_cons, List.filter_cons]
    intro hcontra
    exact absurd hcontra (by decide)
  have hb : (runPipeline hashOne (49 / 5) 2 defaultWeights [c3A, c3B] []).themes.map
      (fun t => t.sector_name) = [("新能源")] := by
    norm_num [runPipeline, analyzeLimitUp, analyzeSingleStock, lookupHist, findContinuousLimitUp,
      checkLimitUpDays, calculateMarketSentiment, estimateSuccessRate, analyzeSectors,
      assignStockSector, analyzeSingleSector, calculateSectorStrength, checkSectorStructure,
      judgeSectorPersistence, identifyCoreStocks, assignStockRole, identifyRoles,
      dragonSectorGroups, firstKeys, getStockSectorFromData, getStockSector, analyzeSectorRoles,
      scoredStocks, pickDragon, pickCore, pickFill, optCode, calculateDragonScore, sortDesc,
      insertDesc, maxByKey, setSector, generateStrategy, identifyMainThemes, rolePairs,
      statSector, sectorStatsFor, rateSectorStrength, judgeThemePersistence,
      generateStockStrategies, generateRiskWarnings, generateTradingSuggestions,
      getMaxContinuousDays, generatorSuccessRate, assessMarketSentiment, assessProfitEffect,
      getDragonStrategy, format2, emptyAnalysisResult, emptyRoles, c3A, c3B, defaultWeights,
      hashZero, hashOne, round2, min_def, sectorKeys, lastN, listMaxD, listMinD,
      dragonSectorTable, round_eq, List.filterMap_cons, List.filter_cons]
    intro hcontra
    exact absurd hcontra (by decide)
  refine ⟨ha, hb, fun heq => ?_⟩
  rw [heq] at ha
  rw [ha] at hb
  exact absurd hb (by decide)

/-- C6: for every stock and every weight configuration with non-negative
streak/limit-time/seal-amount/float-cap weights summing to 1, the composite
score of `_calculate_dragon_score` lies in [0, 100]. -/
theorem C6_composite_score_bounded (w : Weights) (s : Stock)
    (h1 : 0 ≤ w.streak) (h2 : 0 ≤ w.limit_time) (h3 : 0 ≤ w.seal_amount)
    (h4 : 0 ≤ w.float_cap)
    (hsum : w.streak + w.limit_time + w.seal_amount + w.float_cap = 1) :
    0 ≤ calculateDragonScore w s ∧ calculateDragonScore w s ≤ 100 := by
  have hstreak : 0 ≤ min ((s.continuous_days : ℚ) * 25) 100 ∧
      min ((s.continuous_days : ℚ) * 25) 100 ≤ 100 :=
    ⟨le_min (by positivity) (by norm_num), min_le_right _ _⟩
  have htime : (0 : ℚ) ≤ 60 ∧ (60 : ℚ) ≤ 100 := by norm_num
  have hamount : 0 ≤ (if 1000000000 < s.amount then (100 : ℚ)
        else if 500000000 < s.amount then 80
        else if 200000000 < s.amount then 65
        else if 50000000 < s.amount then 50
        else 30) ∧
      (if 1000000000 < s.amount then (100 : ℚ)
        else if 500000000 < s.amount then 80
        else if 200000000 < s.amount then 65
        else if 50000000 < s.amount then 50
        else 30) ≤ 100 := by
    split_ifs <;> norm_num
  have htech : 0 ≤ min (50 + (if s.features.is_breakout then (20 : ℚ) else 0)
          + (if 70 < s.features.price_position then (15 : ℚ)
             else if s.features.price_position < 30 then 10 else 0)
          + (if 5 < s.features.trend_strength then (10 : ℚ) else 0)
          + (if 2 < s.features.volume_quot then (5 : ℚ) else 0)) 100 ∧
      min (50 + (if s.features.is_breakout then (20 : ℚ) else 0)
          + (if 70 < s.features.price_position then (15 : ℚ)
             else if s.features.price_position < 30 then 10 else 0)
          + (if 5 < s.features.trend_strength then (10 : ℚ) else 0)
          + (if 2 < s.features.volume_quot then (5 : ℚ) else 0)) 100 ≤ 100 := by
    constructor
    · apply le_min _ (by norm_num)
      split_ifs <;> norm_num
    · exact min_le_right _ _
  have hbnd := weighted_sum_bounds hstreak htime hamount htech h1 h2 h3 h4 hsum
  exact ⟨round2_nonneg hbnd.1, round2_le_100 hbnd.2⟩

/-- C6 (witness): the bound instantiated at the configured default weights
and a concrete stock. -/
theorem C6_composite_score_bounded_witness :
    0 ≤ calculateDragonScore defaultWeights c6Stock ∧
      calculateDragonScore defaultWeights c6Stock ≤ 100 :=
  C6_composite_score_bounded defaultWeights c6Stock (by norm_num [defaultWeights])
    (by norm_num [defaultWeights]) (by norm_num [defaultWeights])
    (by norm_num [defaultWeights]) (by norm_num [defaultWeights])

/-- C7 (amended): streak detection equals the spec's walk with the cap
corrected to `min 10 (len - 1)` (for positive thresholds; the walk never
counts the oldest bar, and histories of fewer than 2 bars yield 0), and the
streak-stocks output contains exactly the codes of analyzed stocks with
`continuous_days ≥ 2`. -/
theorem C7_streak_amended :
    (∀ (threshold : ℚ) (df : List Bar), 0 < threshold →
        checkLimitUpDays threshold df =
          specWalk threshold (min 10 (df.length - 1)) df.reverse) ∧
    (∀ (threshold : ℚ) (roster : List Record) (hist : List (String × List Bar)) (c : String),
        c ∈ ((analyzeLimitUp threshold roster hist).patterns.map (fun s => s.code)) ↔
          c ∈ (((analyzeLimitUp threshold roster hist).stocks.filter
              (fun s => 2 ≤ s.continuous_days)).map (fun s => s.code))) := by
  constructor
  · intro threshold df hθ
    unfold checkLimitUpDays
    by_cases hlen : df.length < 2
    · rw [if_pos hlen]
      have hz : min 10 (df.length - 1) = 0 := by omega
      rw [hz]
      rfl
    · rw [if_neg hlen]
      exact streakWalk_eq_specWalk hθ _ _
  · exact analyzeLimitUp_patterns_iff

/-- C7 (witness for the amended cap equation at a concrete threshold and
history). -/
theorem C7_streak_amended_witness :
    checkLimitUpDays (49 / 5) fiveLimitUpBars =
      specWalk (49 / 5) (min 10 (fiveLimitUpBars.length - 1)) fiveLimitUpBars.reverse :=
  C7_streak_amended.1 (49 / 5) fiveLimitUpBars (by norm_num)

/-- C8: the pipeline on an empty roster (any history, hash, weights and
thresholds) yields a report with zero limit-up count, `冰点` sentiment, `0%`
success rate, no themes, no stock strategies, and the low-sentiment risk
warning; in the embedding every function is total, so no exception arises. -/
theorem C8_empty_roster_report (h : String → ℕ) (lt : ℚ) (st : ℕ) (w : Weights)
    (hist : List (String × List Bar)) :
    (runPipeline h lt st w [] hist).overview.total_count = 0 ∧
    (runPipeline h lt st w [] hist).overview.sentiment = ("冰点") ∧
    (runPipeline h lt st w [] hist).overview.success_rate = ("0%") ∧
    (runPipeline h lt st w [] hist).themes = [] ∧
    (runPipeline h lt st w [] hist).stock_strategies = [] ∧
    ("涨停家数较少，市场情绪低迷，注意仓位控制") ∈ (runPipeline h lt st w [] hist).risk_warnings := by
  refine ⟨rfl, rfl, rfl, rfl, rfl, ?_⟩
  show _ ∈ ([("涨停家数较少，市场情绪低迷，注意仓位控制"),
             ("无明显龙头板块，市场主线不清晰，谨慎操作")] : List String)
  simp

/-- C9 (amended): whenever `_analyze_sector_roles` assigns a Core, that stock
lies within the top-5 scored set (the claim's consequence holds); the retry on
a Leader collision is attempted only when the sector has more than 2 stocks,
so with exactly 2 stocks the colliding pick is kept and Core can equal the
Leader (see the counterexample). -/
theorem C9_core_always_in_top5 (w : Weights) (stocks : List Stock) (s : Stock)
    (hc : (analyzeSectorRoles w stocks).core = some s) :
    s ∈ (scoredStocks w stocks).take 5 := by
  by_cases h2 : stocks.length < 2
  · unfold analyzeSectorRoles at hc
    rw [if_pos h2] at hc
    exact absurd hc (by simp)
  · rw [analyzeSectorRoles_eq w stocks (by omega)] at hc
    exact pickCore_mem_take5 hc

/-- C9 (witness for the amended theorem at a concrete two-stock sector). -/
theorem C9_core_always_in_top5_witness :
    c9A ∈ (scoredStocks wStreakOnly [c9A, c9B]).take 5 :=
  C9_core_always_in_top5 wStreakOnly [c9A, c9B] c9A
    (by norm_num [analyzeSectorRoles, scoredStocks, pickDragon, pickCore, optCode,
      calculateDragonScore, sortDesc, insertDesc, maxByKey, c9A, c9B, wStreakOnly,
      round2, min_def, lastN, round_eq, List.filterMap_cons, List.filter_cons])

/-- C10: with a sector-strength threshold of at least 2, the role identifier
assigns exactly one Leader and exactly one Core per sufficiently-strong
sector — the Leader and Core list lengths both equal the number of sector
groups meeting the threshold. -/
theorem C10_strong_sectors_get_leader_and_core (h : String → ℕ) (w : Weights)
    (θ : ℕ) (sd : List (String × SectorInfo)) (stocks : List Stock) (hθ : 2 ≤ θ) :
    (identifyRoles h w θ stocks sd).dragons.length =
      ((dragonSectorGroups h sd stocks).filter (fun g => θ ≤ g.2.length)).length ∧
    (identifyRoles h w θ stocks sd).cores.length =
      ((dragonSectorGroups h sd stocks).filter (fun g => θ ≤ g.2.length)).length := by
  by_cases hemp : stocks.isEmpty
  · have hnil : stocks = [] := by simpa using hemp
    subst hnil
    constructor <;> simp [identifyRoles, emptyRoles, dragonSectorGroups, firstKeys]
  · unfold identifyRoles
    rw [if_neg hemp]
    dsimp only
    constructor
    · rw [length_sortDesc]
      apply length_filterMap_eq_length_filter
      intro g hg
      by_cases hs : θ ≤ g.2.length
      · rw [if_pos hs]
        have h2 : 2 ≤ g.2.length := le_trans hθ hs
        simp [Option.isSome_map', analyzeSectorRoles_dragon_isSome w g.2 h2, hs]
      · rw [if_neg hs]
        simp [hs]
    · rw [length_sortDesc]
      apply length_filterMap_eq_length_filter
      intro g hg
      by_cases hs : θ ≤ g.2.length
      · rw [if_pos hs]
        have h2 : 2 ≤ g.2.length := le_trans hθ hs
        simp [Option.isSome_map', analyzeSectorRoles_core_isSome w g.2 h2, hs]
      · rw [if_neg hs]
        simp [hs]

/-- C10 (witness at a concrete two-stock sector with threshold 2). -/
theorem C10_strong_sectors_get_leader_and_core_witness :
    (identifyRoles hashZero wStreakOnly 2 [c9A, c9B] [(("科技"), c10SectorInfo)]).dragons.length =
      ((dragonSectorGroups hashZero [(("科技"), c10SectorInfo)] [c9A, c9B]).filter
        (fun g => 2 ≤ g.2.length)).length ∧
    (identifyRoles hashZero wStreakOnly 2 [c9A, c9B] [(("科技"), c10SectorInfo)]).cores.length =
      ((dragonSectorGroups hashZero [(("科技"), c10SectorInfo)] [c9A, c9B]).filter
        (fun g => 2 ≤ g.2.length)).length :=
  C10_strong_sectors_get_leader_and_core hashZero wStreakOnly 2
    [(("科技"), c10SectorInfo)] [c9A, c9B] (by norm_num)
